import Mathlib

/-!
Verification development for a relay between a browser WebSocket client and a
realtime conversational AI endpoint, augmented with keyword lookups against a
small structured sculpture dataset.

The development shallowly embeds two source modules:

* `json-data-service.ts` — the `JsonDataService` class: an in-memory entity
  store loaded from a JSON file, with name/id/related-entity lookups and a
  conjunctive multi-criteria search.  The service state is the nullable
  `data` field; file reading and JSON parsing are modelled as explicit
  parameters (`Except`-valued read result and parse function), so `loadData`
  and the lazy-reload pattern of every lookup are state transformers.
* `session.ts` — the `RTSession` coordinator: term extraction against fixed
  vocabulary lists, context formatting, the enrichment priority cascade, the
  user-message handling order (system context item, user item, generation
  request), and the re-serialization of streamed text/audio content into
  client frames.

JavaScript string operations are modelled on `List Char`:
`String.prototype.includes` as a contiguous-sublist test and
`String.prototype.toLowerCase` as a character-wise `Char.toLower` map.
JavaScript truthiness tests on strings (`if (s)`) are modelled as
non-emptiness tests, and on nullable strings as `Option` matches.
-/

/-! ## Data model (`json-data-service.ts`) -/

structure Artist where
  id : String
  name : String
  birthYear : Option String
  deathYear : Option String
  nationality : Option String
  bio : Option String
deriving DecidableEq, Repr

structure Material where
  id : String
  name : String
  properties : Option String
  uses : Option String
deriving DecidableEq, Repr

structure Period where
  id : String
  name : String
  startYear : Option String
  endYear : Option String
  characteristics : Option String
deriving DecidableEq, Repr

structure Location where
  id : String
  name : String
  city : Option String
  country : Option String
deriving DecidableEq, Repr

structure Sculpture where
  id : String
  name : String
  artist : String
  year : Option String
  material : Option String
  period : Option String
  location : Option String
  description : Option String
  imageUrl : Option String
  visualDescription : Option String
deriving DecidableEq, Repr

structure SculptureData where
  sculptures : List Sculpture
  artists : List Artist
  materials : List Material
  periods : List Period
  locations : List Location
deriving DecidableEq, Repr

/-! ## String primitives

`subListOf needle hay` models `hay.includes(needle)` on character lists;
`strToLower` models `toLowerCase` (character-wise); `strIncludes hay needle`
models `hay.includes(needle)` on strings. -/

def subListOf (needle : List Char) : List Char → Bool
  | [] => needle.isEmpty
  | c :: cs => needle.isPrefixOf (c :: cs) || subListOf needle cs

def strToLower (s : String) : String := ⟨s.data.map Char.toLower⟩

def strIncludes (hay needle : String) : Bool := subListOf needle.data hay.data

/-! ## Pure lookups on a loaded snapshot

Each `...OnData` function is the body of the corresponding `JsonDataService`
method once `this.data` is known to be present. -/

def findSculptureByNameOnData (d : SculptureData) (name : String) : List Sculpture :=
  let namePattern := strToLower name
  d.sculptures.filter fun sculpture => strIncludes (strToLower sculpture.name) namePattern

def getSculptureByIdOnData (d : SculptureData) (id : String) : Option Sculpture :=
  d.sculptures.find? fun sculpture => sculpture.id == id

def getSculpturesByArtistOnData (d : SculptureData) (artistName : String) :
    List (Sculpture × Artist) :=
  let artistNamePattern := strToLower artistName
  let matchingArtists :=
    d.artists.filter fun artist => strIncludes (strToLower artist.name) artistNamePattern
  matchingArtists.flatMap fun artist =>
    (d.sculptures.filter fun sculpture =>
      sculpture.artist == artist.id || sculpture.artist == artist.name).map
      fun sculpture => (sculpture, artist)

def getSculpturesByMaterialOnData (d : SculptureData) (materialName : String) :
    List (Sculpture × Material) :=
  let materialNamePattern := strToLower materialName
  let matchingMaterials :=
    d.materials.filter fun material => strIncludes (strToLower material.name) materialNamePattern
  matchingMaterials.flatMap fun material =>
    (d.sculptures.filter fun sculpture =>
      sculpture.material == some material.id || sculpture.material == some material.name).map
      fun sculpture => (sculpture, material)

def getSculpturesByPeriodOnData (d : SculptureData) (periodName : String) :
    List (Sculpture × Period) :=
  let periodNamePattern := strToLower periodName
  let matchingPeriods :=
    d.periods.filter fun period => strIncludes (strToLower period.name) periodNamePattern
  matchingPeriods.flatMap fun period =>
    (d.sculptures.filter fun sculpture =>
      sculpture.period == some period.id || sculpture.period == some period.name).map
      fun sculpture => (sculpture, period)

/-! ## Reference resolution used by `searchSculptures`

Each resolver is the inline `Array.prototype.find` of the corresponding
criterion block in `searchSculptures`: a single scan of the referenced
collection, taking the first entity whose `id` or `name` equals the
sculpture's reference string.  For the optional reference fields the
comparison against an absent reference never matches (in JS, comparing
against `undefined`). -/

def resolveArtistRef (artists : List Artist) (ref : String) : Option Artist :=
  artists.find? fun artist => artist.id == ref || artist.name == ref

def resolveMaterialRef (materials : List Material) (ref : Option String) : Option Material :=
  materials.find? fun material => some material.id == ref || some material.name == ref

def resolvePeriodRef (periods : List Period) (ref : Option String) : Option Period :=
  periods.find? fun period => some period.id == ref || some period.name == ref

def resolveLocationRef (locations : List Location) (ref : Option String) : Option Location :=
  locations.find? fun location => some location.id == ref || some location.name == ref

structure SearchParams where
  name : Option String
  artist : Option String
  material : Option String
  period : Option String
  location : Option String
deriving DecidableEq, Repr

/-! Each `search...Check` is one guard block of `searchSculptures`:
`if (params.x && !pass) return false`.  A missing criterion, or a criterion
whose value is the empty string (falsy in JS), leaves the guard untaken. -/

def searchNameCheck (params : SearchParams) (sculpture : Sculpture) : Bool :=
  match params.name with
  | some n => if n == "" then true else strIncludes (strToLower sculpture.name) (strToLower n)
  | none => true

def searchArtistCheck (d : SculptureData) (params : SearchParams) (sculpture : Sculpture) : Bool :=
  match params.artist with
  | some a =>
    if a == "" then true
    else
      match resolveArtistRef d.artists sculpture.artist with
      | some artistMatch => strIncludes (strToLower artistMatch.name) (strToLower a)
      | none => false
  | none => true

def searchMaterialCheck (d : SculptureData) (params : SearchParams) (sculpture : Sculpture) :
    Bool :=
  match params.material with
  | some m =>
    if m == "" then true
    else
      match resolveMaterialRef d.materials sculpture.material with
      | some materialMatch => strIncludes (strToLower materialMatch.name) (strToLower m)
      | none => false
  | none => true

def searchPeriodCheck (d : SculptureData) (params : SearchParams) (sculpture : Sculpture) : Bool :=
  match params.period with
  | some p =>
    if p == "" then true
    else
      match resolvePeriodRef d.periods sculpture.period with
      | some periodMatch => strIncludes (strToLower periodMatch.name) (strToLower p)
      | none => false
  | none => true

def searchLocationCheck (d : SculptureData) (params : SearchParams) (sculpture : Sculpture) :
    Bool :=
  match params.location with
  | some l =>
    if l == "" then true
    else
      match resolveLocationRef d.locations sculpture.location with
      | some locationMatch => strIncludes (strToLower locationMatch.name) (strToLower l)
      | none => false
  | none => true

def searchSculpturesOnData (d : SculptureData) (params : SearchParams) : List Sculpture :=
  d.sculptures.filter fun sculpture =>
    searchNameCheck params sculpture
      && searchArtistCheck d params sculpture
      && searchMaterialCheck d params sculpture
      && searchPeriodCheck d params sculpture
      && searchLocationCheck d params sculpture

def getArtistByIdOnData (d : SculptureData) (id : String) : Option Artist :=
  d.artists.find? fun artist => artist.id == id

def getMaterialByIdOnData (d : SculptureData) (id : String) : Option Material :=
  d.materials.find? fun material => material.id == id

def getPeriodByIdOnData (d : SculptureData) (id : String) : Option Period :=
  d.periods.find? fun period => period.id == id

def getLocationByIdOnData (d : SculptureData) (id : String) : Option Location :=
  d.locations.find? fun location => location.id == id

/-! ## Service state and the stateful methods

`ServiceState.data` is the nullable `this.data` field.  `loadData` reads the
file (`readResult`) and parses it (`parseData`); a thrown read or parse error
is caught, leaving `this.data` untouched and returning `false`.  Every lookup
method begins with `if (!this.data) await this.loadData();` and then answers
from the (possibly still absent) snapshot. -/

structure ServiceState where
  data : Option SculptureData
deriving DecidableEq, Repr

def loadData (readResult : Except String String)
    (parseData : String → Except String SculptureData)
    (st : ServiceState) : ServiceState × Bool :=
  match readResult with
  | .error _ => (st, false)
  | .ok fileContent =>
    match parseData fileContent with
    | .error _ => (st, false)
    | .ok parsed => ({ data := some parsed }, true)

def findSculptureByName (readResult : Except String String)
    (parseData : String → Except String SculptureData)
    (st : ServiceState) (name : String) : ServiceState × List Sculpture :=
  let st := if st.data.isNone then (loadData readResult parseData st).1 else st
  match st.data with
  | none => (st, [])
  | some d => (st, findSculptureByNameOnData d name)

def getSculptureById (readResult : Except String String)
    (parseData : String → Except String SculptureData)
    (st : ServiceState) (id : String) : ServiceState × Option Sculpture :=
  let st := if st.data.isNone then (loadData readResult parseData st).1 else st
  match st.data with
  | none => (st, none)
  | some d => (st, getSculptureByIdOnData d id)

def getSculpturesByArtist (readResult : Except String String)
    (parseData : String → Except String SculptureData)
    (st : ServiceState) (artistName : String) : ServiceState × List (Sculpture × Artist) :=
  let st := if st.data.isNone then (loadData readResult parseData st).1 else st
  match st.data with
  | none => (st, [])
  | some d => (st, getSculpturesByArtistOnData d artistName)

def getSculpturesByMaterial (readResult : Except String String)
    (parseData : String → Except String SculptureData)
    (st : ServiceState) (materialName : String) : ServiceState × List (Sculpture × Material) :=
  let st := if st.data.isNone then (loadData readResult parseData st).1 else st
  match st.data with
  | none => (st, [])
  | some d => (st, getSculpturesByMaterialOnData d materialName)

def getSculpturesByPeriod (readResult : Except String String)
    (parseData : String → Except String SculptureData)
    (st : ServiceState) (periodName : String) : ServiceState × List (Sculpture × Period) :=
  let st := if st.data.isNone then (loadData readResult parseData st).1 else st
  match st.data with
  | none => (st, [])
  | some d => (st, getSculpturesByPeriodOnData d periodName)

def searchSculptures (readResult : Except String String)
    (parseData : String → Except String SculptureData)
    (st : ServiceState) (params : SearchParams) : ServiceState × List Sculpture :=
  let st := if st.data.isNone then (loadData readResult parseData st).1 else st
  match st.data with
  | none => (st, [])
  | some d => (st, searchSculpturesOnData d params)

def getArtistById (readResult : Except String String)
    (parseData : String → Except String SculptureData)
    (st : ServiceState) (id : String) : ServiceState × Option Artist :=
  let st := if st.data.isNone then (loadData readResult parseData st).1 else st
  match st.data with
  | none => (st, none)
  | some d => (st, getArtistByIdOnData d id)

def getMaterialById (readResult : Except String String)
    (parseData : String → Except String SculptureData)
    (st : ServiceState) (id : String) : ServiceState × Option Material :=
  let st := if st.data.isNone then (loadData readResult parseData st).1 else st
  match st.data with
  | none => (st, none)
  | some d => (st, getMaterialByIdOnData d id)

def getPeriodById (readResult : Except String String)
    (parseData : String → Except String SculptureData)
    (st : ServiceState) (id : String) : ServiceState × Option Period :=
  let st := if st.data.isNone then (loadData readResult parseData st).1 else st
  match st.data with
  | none => (st, none)
  | some d => (st, getPeriodByIdOnData d id)

def getLocationById (readResult : Except String String)
    (parseData : String → Except String SculptureData)
    (st : ServiceState) (id : String) : ServiceState × Option Location :=
  let st := if st.data.isNone then (loadData readResult parseData st).1 else st
  match st.data with
  | none => (st, none)
  | some d => (st, getLocationByIdOnData d id)

/-! ## Term extraction (`session.ts`)

`extractTermsFromText` keeps the vocabulary terms occurring as
case-insensitive substrings of the text, in vocabulary-list order. -/

def commonSculptures : List String :=
  ["David", "Pieta", "Venus de Milo", "The Thinker", "Ecstasy of Saint Teresa",
   "Bust of Nefertiti", "Terracotta Army", "Winged Victory",
   "Perseus with the Head of Medusa",
   "Statue of Liberty", "Christ the Redeemer", "Burghers of Calais"]

def commonArtists : List String :=
  ["Michelangelo", "Bernini", "Rodin", "Donatello", "Alexandros", "Antioch",
   "Gian Lorenzo Bernini", "Auguste Rodin"]

def commonMaterials : List String :=
  ["marble", "bronze", "stone", "wood", "clay", "terracotta", "steel"]

def commonPeriods : List String :=
  ["Renaissance", "Baroque", "Classical", "Hellenistic", "Modern"]

def extractTermsFromText (text : String) (terms : List String) : List String :=
  let lowerText := strToLower text
  terms.filter fun term => strIncludes lowerText (strToLower term)

def extractSculptureTerms (text : String) : List String :=
  extractTermsFromText text commonSculptures

def extractArtistTerms (text : String) : List String :=
  extractTermsFromText text commonArtists

def extractMaterialTerms (text : String) : List String :=
  extractTermsFromText text commonMaterials

def extractPeriodTerms (text : String) : List String :=
  extractTermsFromText text commonPeriods

/-! ## Context formatting (`session.ts`)

`optFieldLine` is one `if (x) info += `Label: ${x}\n`;` line over an optional
field, `strFieldLine` the same over a required (but possibly empty, hence
falsy) field.  Each `...Block` is the body of the corresponding `forEach`,
and each `format...Info` folds the blocks onto the fixed section header. -/

def optFieldLine (label : String) (value : Option String) : String :=
  match value with
  | some s => if s == "" then "" else label ++ s ++ "\n"
  | none => ""

def strFieldLine (label : String) (value : String) : String :=
  if value == "" then "" else label ++ value ++ "\n"

def sculptureBlock (sculpture : Sculpture) : String :=
  "Name: " ++ sculpture.name ++ "\n"
    ++ strFieldLine "Artist: " sculpture.artist
    ++ optFieldLine "Year: " sculpture.year
    ++ optFieldLine "Material: " sculpture.material
    ++ optFieldLine "Location: " sculpture.location
    ++ optFieldLine "Description: " sculpture.description
    ++ optFieldLine "Image URL: " sculpture.imageUrl
    ++ optFieldLine "Visual Description: " sculpture.visualDescription
    ++ "\n"

def formatSculptureInfo (sculptures : List Sculpture) : String :=
  sculptures.foldl (fun info sculpture => info ++ sculptureBlock sculpture)
    "\n\nSCULPTURE INFORMATION:\n"

def artistSculptureBlock (result : Sculpture × Artist) : String :=
  "Artist: " ++ result.2.name ++ "\n"
    ++ optFieldLine "Born: " result.2.birthYear
    ++ optFieldLine "Died: " result.2.deathYear
    ++ optFieldLine "Nationality: " result.2.nationality
    ++ optFieldLine "Biography: " result.2.bio
    ++ "\nSculpture: " ++ result.1.name ++ "\n"
    ++ optFieldLine "Year: " result.1.year
    ++ optFieldLine "Material: " result.1.material
    ++ optFieldLine "Location: " result.1.location
    ++ optFieldLine "Description: " result.1.description
    ++ optFieldLine "Image URL: " result.1.imageUrl
    ++ optFieldLine "Visual Description: " result.1.visualDescription
    ++ "\n"

def formatArtistSculptureInfo (results : List (Sculpture × Artist)) : String :=
  results.foldl (fun info result => info ++ artistSculptureBlock result)
    "\n\nARTIST AND SCULPTURE INFORMATION:\n"

def materialSculptureBlock (result : Sculpture × Material) : String :=
  "Material: " ++ result.2.name ++ "\n"
    ++ optFieldLine "Properties: " result.2.properties
    ++ optFieldLine "Common Uses: " result.2.uses
    ++ "\nSculpture: " ++ result.1.name ++ "\n"
    ++ strFieldLine "Artist: " result.1.artist
    ++ optFieldLine "Year: " result.1.year
    ++ optFieldLine "Location: " result.1.location
    ++ optFieldLine "Description: " result.1.description
    ++ optFieldLine "Image URL: " result.1.imageUrl
    ++ optFieldLine "Visual Description: " result.1.visualDescription
    ++ "\n"

def formatMaterialSculptureInfo (results : List (Sculpture × Material)) : String :=
  results.foldl (fun info result => info ++ materialSculptureBlock result)
    "\n\nMATERIAL AND SCULPTURE INFORMATION:\n"

def periodSculptureBlock (result : Sculpture × Period) : String :=
  "Period: " ++ result.2.name ++ "\n"
    ++ optFieldLine "Started: " result.2.startYear
    ++ optFieldLine "Ended: " result.2.endYear
    ++ optFieldLine "Characteristics: " result.2.characteristics
    ++ "\nSculpture: " ++ result.1.name ++ "\n"
    ++ strFieldLine "Artist: " result.1.artist
    ++ optFieldLine "Year: " result.1.year
    ++ optFieldLine "Material: " result.1.material
    ++ optFieldLine "Location: " result.1.location
    ++ optFieldLine "Description: " result.1.description
    ++ optFieldLine "Image URL: " result.1.imageUrl
    ++ optFieldLine "Visual Description: " result.1.visualDescription
    ++ "\n"

def formatPeriodSculptureInfo (results : List (Sculpture × Period)) : String :=
  results.foldl (fun info result => info ++ periodSculptureBlock result)
    "\n\nPERIOD AND SCULPTURE INFORMATION:\n"

/-! ## Enrichment (`enrichWithSculptureData`)

The session only enriches through a `dataService` that survived
initialization, i.e. whose snapshot is loaded, so the lookups are the pure
`...OnData` functions.  `enrichCategoryLoop` is one `for … { if
(results.length > 0) { hasRelevantResults = true; contextMessage += fmt;
break; } }` loop, threading the `hasRelevantResults`/`contextMessage`
mutable pair.  The result is the text of the system context item the method
submits, or `none` when it submits nothing. -/

def enrichCategoryLoop {β : Type} (lookup : String → List β) (fmt : List β → String) :
    List String → Bool → String → Bool × String
  | [], has, ctx => (has, ctx)
  | term :: rest, has, ctx =>
    let results := lookup term
    if results.length > 0 then (true, ctx ++ fmt results)
    else enrichCategoryLoop lookup fmt rest has ctx

def enrichLead : String :=
  "Here is relevant information about the sculptures from the database: "

def enrichWithSculptureData (d : SculptureData) (userMessage : String) : Option String :=
  let sculptureMentions := extractSculptureTerms userMessage
  let artistMentions := extractArtistTerms userMessage
  let materialMentions := extractMaterialTerms userMessage
  let periodMentions := extractPeriodTerms userMessage
  let st0 : Bool × String := (false, "")
  let st1 :=
    if sculptureMentions.length > 0 then
      enrichCategoryLoop (findSculptureByNameOnData d) formatSculptureInfo
        sculptureMentions st0.1 st0.2
    else st0
  let st2 :=
    if !st1.1 && artistMentions.length > 0 then
      enrichCategoryLoop (getSculpturesByArtistOnData d) formatArtistSculptureInfo
        artistMentions st1.1 st1.2
    else st1
  let st3 :=
    if !st2.1 && materialMentions.length > 0 then
      enrichCategoryLoop (getSculpturesByMaterialOnData d) formatMaterialSculptureInfo
        materialMentions st2.1 st2.2
    else st2
  let st4 :=
    if !st3.1 && periodMentions.length > 0 then
      enrichCategoryLoop (getSculpturesByPeriodOnData d) formatPeriodSculptureInfo
        periodMentions st3.1 st3.2
    else st3
  if st4.1 && !(st4.2 == "") then some (enrichLead ++ st4.2) else none

/-! ## Spec reading of the enrichment cascade

`firstTermWithResults` tries candidate terms in extraction order and stops at
the first one whose lookup has results; `specEnrichmentContext` tries the
four categories in the documented priority order (sculpture name, artist,
material, period) and takes the first category that yields anything.  This
definition follows the specification text; the claim theorem compares it
with the code embedding `enrichWithSculptureData`. -/

def firstTermWithResults {β : Type} (lookup : String → List β) :
    List String → Option (String × List β)
  | [] => none
  | term :: rest =>
    let results := lookup term
    if results.isEmpty then firstTermWithResults lookup rest else some (term, results)

def specEnrichmentContext (d : SculptureData) (userMessage : String) : Option String :=
  match firstTermWithResults (findSculptureByNameOnData d) (extractSculptureTerms userMessage) with
  | some hit => some (enrichLead ++ formatSculptureInfo hit.2)
  | none =>
    match firstTermWithResults (getSculpturesByArtistOnData d)
        (extractArtistTerms userMessage) with
    | some hit => some (enrichLead ++ formatArtistSculptureInfo hit.2)
    | none =>
      match firstTermWithResults (getSculpturesByMaterialOnData d)
          (extractMaterialTerms userMessage) with
      | some hit => some (enrichLead ++ formatMaterialSculptureInfo hit.2)
      | none =>
        match firstTermWithResults (getSculpturesByPeriodOnData d)
            (extractPeriodTerms userMessage) with
        | some hit => some (enrichLead ++ formatPeriodSculptureInfo hit.2)
        | none => none

/-! ## Client frames and the user-message path (`session.ts`)

`ClientFrame` is the closed set of client-bound messages (`WSMessage` plus
binary frames).  `SessionAction` records the externally visible effects of
handling one inbound user message: items submitted to the remote session,
generation requests, and frames sent to the client.  `EnrichFault` abstracts
where an exception is raised inside `enrichWithSculptureData`; whatever is
thrown there is caught by the method's own `try/catch`, so `handleTextMessage`
continues with the user item and the generation request. -/

inductive ClientFrame : Type
  | textDelta (id : String) (delta : String)
  | transcription (id : String) (text : String)
  | speechStarted
  | connected (greeting : String)
  | textDone (id : String)
  | binary (bytes : List Nat)
deriving DecidableEq, Repr

inductive SessionAction : Type
  | sendItem (role : String) (text : String)
  | generateResponse
  | clientFrame (frame : ClientFrame)
deriving DecidableEq, Repr

inductive EnrichFault : Type
  | noFault
  | lookupFault
  | contextSendFault
deriving DecidableEq, Repr

/-- The context `sendItem` call performed for a computed enrichment result:
one system-role item when the cascade produced a context, nothing otherwise. -/
def contextItemFor : Option String → List SessionAction
  | some ctx => [SessionAction.sendItem "system" ctx]
  | none => []

/-- Remote submissions performed inside `enrichWithSculptureData`.  A
`lookupFault` aborts the method before any submission; a `contextSendFault`
is an exception out of the context `sendItem` call itself (the submission
attempt is recorded, its failure is caught and logged). -/
def enrichActions (d : SculptureData) (userMessage : String) (fault : EnrichFault) :
    List SessionAction :=
  match fault with
  | .lookupFault => []
  | .contextSendFault => contextItemFor (enrichWithSculptureData d userMessage)
  | .noFault => contextItemFor (enrichWithSculptureData d userMessage)

/-- The `parsed.type === "user_message"` branch of `handleTextMessage`:
enrich (only when a data service is present and the text is truthy), then
submit the user item, then request generation. -/
def handleUserMessage (dataService : Option SculptureData) (text : String)
    (fault : EnrichFault) : List SessionAction :=
  let enrichPart :=
    match dataService with
    | some d => if text == "" then [] else enrichActions d text fault
    | none => []
  enrichPart ++ [SessionAction.sendItem "user" text, SessionAction.generateResponse]

/-! ## Streaming text content to the client (`handleTextContent`) -/

structure RTTextContentModel where
  itemId : String
  contentIndex : Nat
  textChunks : List String
deriving DecidableEq, Repr

def contentIdOf (itemId : String) (contentIndex : Nat) : String :=
  itemId ++ "-" ++ toString contentIndex

def handleTextContent (content : RTTextContentModel) : List ClientFrame :=
  let contentId := contentIdOf content.itemId content.contentIndex
  (content.textChunks.map fun text => ClientFrame.textDelta contentId text)
    ++ [ClientFrame.textDone contentId]

def deltaPayload : ClientFrame → Option String
  | .textDelta _ delta => some delta
  | _ => none

def isDeltaWithId (contentId : String) : ClientFrame → Bool
  | .textDelta id _ => id == contentId
  | _ => false

def isDoneFrame : ClientFrame → Bool
  | .textDone _ => true
  | _ => false

/-! ## Streaming audio chunks to the client (`handleAudioContent`)

An audio chunk from the remote stream is a typed-array view: `bufferBytes`
are the bytes of the underlying `chunk.buffer`, `byteOffset`/`byteLength`
delimit the view, and `bufferIsArrayBuffer` tells whether `chunk.buffer
instanceof ArrayBuffer` holds (it fails e.g. for a `SharedArrayBuffer`
backing store).  The chunk's own bytes are the view slice.  The code sends
`chunk.buffer` itself when it is an `ArrayBuffer`, and otherwise sends
`new ArrayBuffer(chunk.buffer.byteLength).slice(0)` — a fresh zero-filled
buffer; `sendBinary` wraps the chosen buffer whole with `Buffer.from`. -/

structure AudioChunk where
  bufferBytes : List Nat
  byteOffset : Nat
  byteLength : Nat
  bufferIsArrayBuffer : Bool
deriving DecidableEq, Repr

def chunkViewBytes (chunk : AudioChunk) : List Nat :=
  (chunk.bufferBytes.drop chunk.byteOffset).take chunk.byteLength

def sentAudioFrameBytes (chunk : AudioChunk) : List Nat :=
  if chunk.bufferIsArrayBuffer then chunk.bufferBytes
  else List.replicate chunk.bufferBytes.length 0

def handleAudioChunks (chunks : List AudioChunk) : List ClientFrame :=
  chunks.map fun chunk => ClientFrame.binary (sentAudioFrameBytes chunk)

/-! ## Concrete datasets used by witnesses and counterexamples -/

def demoSculpture : Sculpture :=
  { id := "s1", name := "David", artist := "Michelangelo", year := some "1504",
    material := some "marble", period := none, location := none, description := none,
    imageUrl := none, visualDescription := none }

def demoArtist : Artist :=
  { id := "a1", name := "Michelangelo", birthYear := some "1475", deathYear := some "1564",
    nationality := some "Italian", bio := none }

def demoData : SculptureData :=
  { sculptures := [demoSculpture], artists := [demoArtist], materials := [], periods := [],
    locations := [] }

/-- An artist whose `name` equals the reference string `"X"`. -/
def artistNameHit : Artist :=
  { id := "a1", name := "X", birthYear := none, deathYear := none, nationality := none,
    bio := none }

/-- An artist whose `id` equals the reference string `"X"`. -/
def artistIdHit : Artist :=
  { id := "X", name := "Bronzeworker", birthYear := none, deathYear := none,
    nationality := none, bio := none }

/-- A sculpture whose artist reference is the ambiguous string `"X"`. -/
def refSculpture : Sculpture :=
  { id := "s1", name := "Figure", artist := "X", year := none, material := none,
    period := none, location := none, description := none, imageUrl := none,
    visualDescription := none }

def refData : SculptureData :=
  { sculptures := [refSculpture], artists := [artistNameHit, artistIdHit], materials := [],
    periods := [], locations := [] }

/-- A sculpture whose artist reference `"ghost"` resolves to no artist. -/
def ghostSculpture : Sculpture :=
  { id := "s1", name := "Lonely", artist := "ghost", year := none, material := none,
    period := none, location := none, description := none, imageUrl := none,
    visualDescription := none }

def ghostData : SculptureData :=
  { sculptures := [ghostSculpture], artists := [], materials := [], periods := [],
    locations := [] }

/-! ## Helper lemmas -/

lemma str_empty_append (s : String) : "" ++ s = s := rfl

lemma foldl_append_data_ne_nil {α : Type} (f : α → String) (l : List α) (init : String)
    (h : init.data ≠ []) :
    (l.foldl (fun info x => info ++ f x) init).data ≠ [] := by
  induction l generalizing init with
  | nil => exact h
  | cons a t ih =>
    apply ih
    rw [String.data_append]
    intro hc
    exact h (List.append_eq_nil.mp hc).1

lemma formatSculptureInfo_ne_empty (sculptures : List Sculpture) :
    (formatSculptureInfo sculptures == "") = false := by
  rw [beq_eq_false_iff_ne]
  intro hc
  apply foldl_append_data_ne_nil sculptureBlock sculptures "\n\nSCULPTURE INFORMATION:\n"
    (by decide)
  show (formatSculptureInfo sculptures).data = []
  rw [hc]

lemma formatArtistSculptureInfo_ne_empty (results : List (Sculpture × Artist)) :
    (formatArtistSculptureInfo results == "") = false := by
  rw [beq_eq_false_iff_ne]
  intro hc
  apply foldl_append_data_ne_nil artistSculptureBlock results
    "\n\nARTIST AND SCULPTURE INFORMATION:\n" (by decide)
  show (formatArtistSculptureInfo results).data = []
  rw [hc]

lemma formatMaterialSculptureInfo_ne_empty (results : List (Sculpture × Material)) :
    (formatMaterialSculptureInfo results == "") = false := by
  rw [beq_eq_false_iff_ne]
  intro hc
  apply foldl_append_data_ne_nil materialSculptureBlock results
    "\n\nMATERIAL AND SCULPTURE INFORMATION:\n" (by decide)
  show (formatMaterialSculptureInfo results).data = []
  rw [hc]

lemma formatPeriodSculptureInfo_ne_empty (results : List (Sculpture × Period)) :
    (formatPeriodSculptureInfo results == "") = false := by
  rw [beq_eq_false_iff_ne]
  intro hc
  apply foldl_append_data_ne_nil periodSculptureBlock results
    "\n\nPERIOD AND SCULPTURE INFORMATION:\n" (by decide)
  show (formatPeriodSculptureInfo results).data = []
  rw [hc]

lemma enrichCategoryLoop_spec {β : Type} (lookup : String → List β) (fmt : List β → String)
    (terms : List String) :
    enrichCategoryLoop lookup fmt terms false "" =
      match firstTermWithResults lookup terms with
      | none => (false, "")
      | some hit => (true, fmt hit.2) := by
  induction terms with
  | nil => rfl
  | cons term rest ih =>
    simp only [enrichCategoryLoop, firstTermWithResults]
    cases h : lookup term with
    | nil => simpa [h] using ih
    | cons b bs => simp [h, str_empty_append]

lemma loadData_failed (readResult : Except String String)
    (parseData : String → Except String SculptureData) (st : ServiceState)
    (h : (loadData readResult parseData st).2 = false) :
    loadData readResult parseData st = (st, false) := by
  cases readResult with
  | error e => rfl
  | ok content =>
    cases hp : parseData content with
    | error e => simp [loadData, hp]
    | ok d => simp [loadData, hp] at h

/-! ## Criterion predicates (spec side of the amended search claim)

A criterion is supplied when its field is `some` and its value is non-empty
(an empty string is falsy in JS and leaves the guard untaken). -/

def NameCriterionOk (params : SearchParams) (sculpture : Sculpture) : Prop :=
  ∀ n, params.name = some n → n ≠ "" →
    strIncludes (strToLower sculpture.name) (strToLower n) = true

def ArtistCriterionOk (d : SculptureData) (params : SearchParams) (sculpture : Sculpture) :
    Prop :=
  ∀ a, params.artist = some a → a ≠ "" →
    ∃ e, resolveArtistRef d.artists sculpture.artist = some e ∧
      strIncludes (strToLower e.name) (strToLower a) = true

def MaterialCriterionOk (d : SculptureData) (params : SearchParams) (sculpture : Sculpture) :
    Prop :=
  ∀ m, params.material = some m → m ≠ "" →
    ∃ e, resolveMaterialRef d.materials sculpture.material = some e ∧
      strIncludes (strToLower e.name) (strToLower m) = true

def PeriodCriterionOk (d : SculptureData) (params : SearchParams) (sculpture : Sculpture) :
    Prop :=
  ∀ p, params.period = some p → p ≠ "" →
    ∃ e, resolvePeriodRef d.periods sculpture.period = some e ∧
      strIncludes (strToLower e.name) (strToLower p) = true

def LocationCriterionOk (d : SculptureData) (params : SearchParams) (sculpture : Sculpture) :
    Prop :=
  ∀ l, params.location = some l → l ≠ "" →
    ∃ e, resolveLocationRef d.locations sculpture.location = some e ∧
      strIncludes (strToLower e.name) (strToLower l) = true

lemma searchNameCheck_iff (params : SearchParams) (s : Sculpture) :
    searchNameCheck params s = true ↔ NameCriterionOk params s := by
  cases hn : params.name with
  | none => simp [searchNameCheck, hn, NameCriterionOk]
  | some n =>
    by_cases he : n = ""
    · subst he
      simp [searchNameCheck, hn, NameCriterionOk]
    · simp [searchNameCheck, hn, NameCriterionOk, he]

lemma searchArtistCheck_iff (d : SculptureData) (params : SearchParams) (s : Sculpture) :
    searchArtistCheck d params s = true ↔ ArtistCriterionOk d params s := by
  cases ha : params.artist with
  | none => simp [searchArtistCheck, ha, ArtistCriterionOk]
  | some a =>
    by_cases he : a = ""
    · subst he
      simp [searchArtistCheck, ha, ArtistCriterionOk]
    · cases hr : resolveArtistRef d.artists s.artist with
      | none => simp [searchArtistCheck, ha, ArtistCriterionOk, he, hr]
      | some e => simp [searchArtistCheck, ha, ArtistCriterionOk, he, hr]

lemma searchMaterialCheck_iff (d : SculptureData) (params : SearchParams) (s : Sculpture) :
    searchMaterialCheck d params s = true ↔ MaterialCriterionOk d params s := by
  cases hm : params.material with
  | none => simp [searchMaterialCheck, hm, MaterialCriterionOk]
  | some m =>
    by_cases he : m = ""
    · subst he
      simp [searchMaterialCheck, hm, MaterialCriterionOk]
    · cases hr : resolveMaterialRef d.materials s.material with
      | none => simp [searchMaterialCheck, hm, MaterialCriterionOk, he, hr]
      | some e => simp [searchMaterialCheck, hm, MaterialCriterionOk, he, hr]

lemma searchPeriodCheck_iff (d : SculptureData) (params : SearchParams) (s : Sculpture) :
    searchPeriodCheck d params s = true ↔ PeriodCriterionOk d params s := by
  cases hp : params.period with
  | none => simp [searchPeriodCheck, hp, PeriodCriterionOk]
  | some p =>
    by_cases he : p = ""
    · subst he
      simp [searchPeriodCheck, hp, PeriodCriterionOk]
    · cases hr : resolvePeriodRef d.periods s.period with
      | none => simp [searchPeriodCheck, hp, PeriodCriterionOk, he, hr]
      | some e => simp [searchPeriodCheck, hp, PeriodCriterionOk, he, hr]

lemma searchLocationCheck_iff (d : SculptureData) (params : SearchParams) (s : Sculpture) :
    searchLocationCheck d params s = true ↔ LocationCriterionOk d params s := by
  cases hl : params.location with
  | none => simp [searchLocationCheck, hl, LocationCriterionOk]
  | some l =>
    by_cases he : l = ""
    · subst he
      simp [searchLocationCheck, hl, LocationCriterionOk]
    · cases hr : resolveLocationRef d.locations s.location with
      | none => simp [searchLocationCheck, hl, LocationCriterionOk, he, hr]
      | some e => simp [searchLocationCheck, hl, LocationCriterionOk, he, hr]

/-! ## Claim theorems: entity store -/

/-- Claim C6: `loadData` is atomic with respect to the store snapshot.  On a
read or parse failure it reports `false` and leaves `this.data` exactly as it
was before the call (previous snapshot or unset); on success it reports
`true` and installs the whole parsed snapshot at once. -/
theorem loadData_atomic (readResult : Except String String)
    (parseData : String → Except String SculptureData) (st : ServiceState) :
    ((loadData readResult parseData st).2 = false →
      (loadData readResult parseData st).1 = st) ∧
    ((loadData readResult parseData st).2 = true →
      ∃ fileContent parsed, readResult = .ok fileContent ∧
        parseData fileContent = .ok parsed ∧
        (loadData readResult parseData st).1 = { data := some parsed }) := by
  constructor
  · intro h
    rw [loadData_failed readResult parseData st h]
  · intro h
    cases readResult with
    | error e => simp [loadData] at h
    | ok content =>
      cases hp : parseData content with
      | error e => simp [loadData, hp] at h
      | ok parsed => exact ⟨content, parsed, rfl, hp, by simp [loadData, hp]⟩

/-- Witness for C6: a read failure keeps a previous snapshot, and a parse
failure keeps the store unset. -/
theorem loadData_atomic_witness :
    (loadData (.error "io error") (fun _ => .ok demoData) { data := some demoData }).1 =
      { data := some demoData } ∧
    (loadData (.ok "not json") (fun _ => .error "parse error") { data := none }).1 =
      { data := none } :=
  ⟨(loadData_atomic (.error "io error") (fun _ => .ok demoData)
      { data := some demoData }).1 rfl,
   (loadData_atomic (.ok "not json") (fun _ => .error "parse error") { data := none }).1 rfl⟩

/-- Counterexample to claim C5: a lookup issued while the store is unset is
not answered as "store absent" — it attempts a load of its own.  With a load
environment that now succeeds, `findSculptureByName` on an unset store
returns a non-empty result and leaves the store loaded. -/
theorem lookup_unset_store_counterexample :
    (findSculptureByName (.ok "file content") (fun _ => .ok demoData)
      { data := none } "david").2 = [demoSculpture] ∧
    (findSculptureByName (.ok "file content") (fun _ => .ok demoData)
      { data := none } "david").1 = { data := some demoData } := by
  constructor <;> decide

/-- Claim C5 (amended): after a failed load, a lookup on the unset store
first retries the load itself; when that retry also fails, every lookup
operation returns an empty sequence or absent result without raising and
leaves the store unset. -/
theorem lookups_after_failed_load (readResult : Except String String)
    (parseData : String → Except String SculptureData) (st : ServiceState)
    (hst : st.data = none) (hfail : (loadData readResult parseData st).2 = false) :
    (∀ name, findSculptureByName readResult parseData st name = (st, [])) ∧
    (∀ id, getSculptureById readResult parseData st id = (st, none)) ∧
    (∀ artistName, getSculpturesByArtist readResult parseData st artistName = (st, [])) ∧
    (∀ materialName, getSculpturesByMaterial readResult parseData st materialName = (st, [])) ∧
    (∀ periodName, getSculpturesByPeriod readResult parseData st periodName = (st, [])) ∧
    (∀ params, searchSculptures readResult parseData st params = (st, [])) ∧
    (∀ id, getArtistById readResult parseData st id = (st, none)) ∧
    (∀ id, getMaterialById readResult parseData st id = (st, none)) ∧
    (∀ id, getPeriodById readResult parseData st id = (st, none)) ∧
    (∀ id, getLocationById readResult parseData st id = (st, none)) := by
  have hld := loadData_failed readResult parseData st hfail
  refine ⟨?_, ?_, ?_, ?_, ?_, ?_, ?_, ?_, ?_, ?_⟩ <;> intro x <;>
    simp [findSculptureByName, getSculptureById, getSculpturesByArtist,
      getSculpturesByMaterial, getSculpturesByPeriod, searchSculptures, getArtistById,
      getMaterialById, getPeriodById, getLocationById, hld, hst]

/-- Witness for C5 (amended): with a persistently failing load source, a
lookup on the unset store answers empty and the store stays unset. -/
theorem lookups_after_failed_load_witness :
    findSculptureByName (.error "io error") (fun _ => .error "parse error")
      { data := none } "david" = ({ data := none }, []) :=
  (lookups_after_failed_load (.error "io error") (fun _ => .error "parse error")
    { data := none } rfl rfl).1 "david"

/-- Counterexample to claim C4: reference resolution does not give id matches
priority over name matches.  The sculpture's artist reference is `"X"`;
`artistIdHit` has id `"X"` and `artistNameHit` (earlier in store order) has
name `"X"`.  Resolution picks `artistNameHit`, so a search for artist
criterion `"bronze"` misses even though the id-matched entity's name
contains `"bronze"`. -/
theorem ref_resolution_counterexample :
    refSculpture.artist = "X" ∧
    artistIdHit.id = "X" ∧
    artistNameHit.id ≠ "X" ∧
    artistNameHit.name = "X" ∧
    artistNameHit ≠ artistIdHit ∧
    resolveArtistRef refData.artists "X" = some artistNameHit ∧
    strIncludes (strToLower artistIdHit.name) (strToLower "bronze") = true ∧
    searchSculpturesOnData refData
      { name := none, artist := some "bronze", material := none, period := none,
        location := none } = [] := by
  decide

/-- Claim C4 (amended): every reference field of a sculpture (artist,
material, period, location) is resolved by a single scan of the referenced
collection in store order, selecting the first entity whose id or name
equals the reference (case-sensitive, never fuzzy); id matches take no
precedence over name matches of earlier entities.  For the optional
reference fields an absent reference (compared as `undefined` in JS)
resolves to no entity. -/
theorem ref_resolution_first_match :
    (∀ (artists : List Artist) (ref : String) (a : Artist),
      resolveArtistRef artists ref = some a ↔
        (a.id = ref ∨ a.name = ref) ∧
        ∃ earlier later, artists = earlier ++ a :: later ∧
          ∀ b ∈ earlier, b.id ≠ ref ∧ b.name ≠ ref) ∧
    (∀ (materials : List Material) (ref : Option String) (m : Material),
      resolveMaterialRef materials ref = some m ↔
        (some m.id = ref ∨ some m.name = ref) ∧
        ∃ earlier later, materials = earlier ++ m :: later ∧
          ∀ b ∈ earlier, some b.id ≠ ref ∧ some b.name ≠ ref) ∧
    (∀ (periods : List Period) (ref : Option String) (p : Period),
      resolvePeriodRef periods ref = some p ↔
        (some p.id = ref ∨ some p.name = ref) ∧
        ∃ earlier later, periods = earlier ++ p :: later ∧
          ∀ b ∈ earlier, some b.id ≠ ref ∧ some b.name ≠ ref) ∧
    (∀ (locations : List Location) (ref : Option String) (l : Location),
      resolveLocationRef locations ref = some l ↔
        (some l.id = ref ∨ some l.name = ref) ∧
        ∃ earlier later, locations = earlier ++ l :: later ∧
          ∀ b ∈ earlier, some b.id ≠ ref ∧ some b.name ≠ ref) := by
  refine ⟨?_, ?_, ?_, ?_⟩
  · intro artists ref a
    rw [resolveArtistRef, List.find?_eq_some]
    constructor
    · rintro ⟨hpa, earlier, later, rfl, hprev⟩
      refine ⟨by simpa using hpa, earlier, later, rfl, ?_⟩
      intro b hb
      simpa [not_or] using hprev b hb
    · rintro ⟨hm, earlier, later, rfl, hprev⟩
      refine ⟨by simpa using hm, earlier, later, rfl, ?_⟩
      intro b hb
      simpa [not_or] using hprev b hb
  · intro materials ref m
    rw [resolveMaterialRef, List.find?_eq_some]
    constructor
    · rintro ⟨hpa, earlier, later, rfl, hprev⟩
      refine ⟨by simpa using hpa, earlier, later, rfl, ?_⟩
      intro b hb
      simpa [not_or] using hprev b hb
    · rintro ⟨hm2, earlier, later, rfl, hprev⟩
      refine ⟨by simpa using hm2, earlier, later, rfl, ?_⟩
      intro b hb
      simpa [not_or] using hprev b hb
  · intro periods ref p
    rw [resolvePeriodRef, List.find?_eq_some]
    constructor
    · rintro ⟨hpa, earlier, later, rfl, hprev⟩
      refine ⟨by simpa using hpa, earlier, later, rfl, ?_⟩
      intro b hb
      simpa [not_or] using hprev b hb
    · rintro ⟨hm2, earlier, later, rfl, hprev⟩
      refine ⟨by simpa using hm2, earlier, later, rfl, ?_⟩
      intro b hb
      simpa [not_or] using hprev b hb
  · intro locations ref l
    rw [resolveLocationRef, List.find?_eq_some]
    constructor
    · rintro ⟨hpa, earlier, later, rfl, hprev⟩
      refine ⟨by simpa using hpa, earlier, later, rfl, ?_⟩
      intro b hb
      simpa [not_or] using hprev b hb
    · rintro ⟨hm2, earlier, later, rfl, hprev⟩
      refine ⟨by simpa using hm2, earlier, later, rfl, ?_⟩
      intro b hb
      simpa [not_or] using hprev b hb

/-- Counterexample to claim C7: a supplied artist criterion whose value is
the empty string is skipped entirely (JS falsiness), so a sculpture whose
artist reference resolves to no entity is still returned. -/
theorem search_empty_criterion_counterexample :
    searchSculpturesOnData ghostData
      { name := none, artist := some "", material := none, period := none,
        location := none } = [ghostSculpture] ∧
    resolveArtistRef ghostData.artists ghostSculpture.artist = none := by
  decide

/-- Claim C7 (amended): on a loaded store, search is a conjunctive filter in
store order.  A criterion that is absent or has an empty-string value is
ignored; a non-empty name criterion is a case-insensitive substring match on
the sculpture's own name; every other non-empty criterion resolves the
sculpture's reference field (store-order id-or-name scan) and requires the
resolved entity's name to contain the criterion value case-insensitively, a
sculpture whose reference resolves to no entity failing that criterion. -/
theorem search_mem_characterization (d : SculptureData) (params : SearchParams)
    (sculpture : Sculpture) :
    sculpture ∈ searchSculpturesOnData d params ↔
      sculpture ∈ d.sculptures ∧
      NameCriterionOk params sculpture ∧
      ArtistCriterionOk d params sculpture ∧
      MaterialCriterionOk d params sculpture ∧
      PeriodCriterionOk d params sculpture ∧
      LocationCriterionOk d params sculpture := by
  rw [searchSculpturesOnData, List.mem_filter]
  simp only [Bool.and_eq_true, searchNameCheck_iff, searchArtistCheck_iff,
    searchMaterialCheck_iff, searchPeriodCheck_iff, searchLocationCheck_iff, and_assoc]

/-- Claim C10: on a loaded store, search with no criteria supplied returns
every sculpture in store order. -/
theorem search_empty_criteria_all (readResult : Except String String)
    (parseData : String → Except String SculptureData) (st : ServiceState)
    (d : SculptureData) (h : st.data = some d) :
    searchSculptures readResult parseData st
      { name := none, artist := none, material := none, period := none, location := none } =
      (st, d.sculptures) := by
  simp [searchSculptures, h, searchSculpturesOnData, searchNameCheck, searchArtistCheck,
    searchMaterialCheck, searchPeriodCheck, searchLocationCheck, List.filter_eq_self]

/-- Witness for C10 at a concrete loaded store. -/
theorem search_empty_criteria_all_witness :
    searchSculptures (.error "io error") (fun _ => .error "parse error")
      { data := some demoData }
      { name := none, artist := none, material := none, period := none, location := none } =
      ({ data := some demoData }, demoData.sculptures) :=
  search_empty_criteria_all (.error "io error") (fun _ => .error "parse error")
    { data := some demoData } demoData rfl


/-! ## Claim theorems: session coordinator -/

lemma enrichGuardedCategory {β : Type} (lookup : String → List β) (fmt : List β → String)
    (terms : List String) :
    (if terms.length > 0 then enrichCategoryLoop lookup fmt terms false "" else
        ((false : Bool), "")) =
      match firstTermWithResults lookup terms with
      | none => ((false : Bool), "")
      | some hit => (true, fmt hit.2) := by
  cases terms with
  | nil => rfl
  | cons term rest => simpa using enrichCategoryLoop_spec lookup fmt (term :: rest)

/-- Claim C1: for every user message and loaded store, enrichment tries the
categories in the fixed priority order (sculpture name, artist, material,
period), selects exactly the first category with a term whose lookup is
non-empty, takes the first such term in extraction order, and the injected
context is formatted from exactly that one category and term — i.e. the code
path equals the specification-side cascade `specEnrichmentContext`. -/
theorem enrichment_priority_selection (d : SculptureData) (userMessage : String) :
    enrichWithSculptureData d userMessage = specEnrichmentContext d userMessage := by
  rcases h1 : firstTermWithResults (findSculptureByNameOnData d)
      (extractSculptureTerms userMessage) with _ | hit1
  · rcases h2 : firstTermWithResults (getSculpturesByArtistOnData d)
        (extractArtistTerms userMessage) with _ | hit2
    · rcases h3 : firstTermWithResults (getSculpturesByMaterialOnData d)
          (extractMaterialTerms userMessage) with _ | hit3
      · rcases h4 : firstTermWithResults (getSculpturesByPeriodOnData d)
            (extractPeriodTerms userMessage) with _ | hit4
        · simp [enrichWithSculptureData, specEnrichmentContext, enrichGuardedCategory,
            h1, h2, h3, h4]
        · simp [enrichWithSculptureData, specEnrichmentContext, enrichGuardedCategory,
            h1, h2, h3, h4, formatPeriodSculptureInfo_ne_empty]
      · simp [enrichWithSculptureData, specEnrichmentContext, enrichGuardedCategory,
          h1, h2, h3, formatMaterialSculptureInfo_ne_empty]
    · simp [enrichWithSculptureData, specEnrichmentContext, enrichGuardedCategory,
        h1, h2, formatArtistSculptureInfo_ne_empty]
  · simp [enrichWithSculptureData, specEnrichmentContext, enrichGuardedCategory,
      h1, formatSculptureInfo_ne_empty]

/-- Claim C2: when enrichment yields a context, exactly one system-role item
is submitted, strictly before the user item, which is strictly before the
generation request; when it yields nothing (or no data service exists), only
the user item is submitted and then generation is requested. -/
theorem user_message_ordering (d : SculptureData) (text : String) :
    (∀ ctx, text ≠ "" → enrichWithSculptureData d text = some ctx →
      handleUserMessage (some d) text .noFault =
        [SessionAction.sendItem "system" ctx, SessionAction.sendItem "user" text,
         SessionAction.generateResponse]) ∧
    (enrichWithSculptureData d text = none →
      handleUserMessage (some d) text .noFault =
        [SessionAction.sendItem "user" text, SessionAction.generateResponse]) ∧
    (∀ fault, handleUserMessage none text fault =
      [SessionAction.sendItem "user" text, SessionAction.generateResponse]) := by
  refine ⟨?_, ?_, ?_⟩
  · intro ctx hne he
    have ht : (text == "") = false := by rwa [beq_eq_false_iff_ne]
    simp [handleUserMessage, enrichActions, contextItemFor, ht, he]
  · intro he
    by_cases hemp : text = ""
    · simp [handleUserMessage, hemp]
    · have ht : (text == "") = false := by rwa [beq_eq_false_iff_ne]
      simp [handleUserMessage, enrichActions, contextItemFor, ht, he]
  · intro fault
    simp [handleUserMessage]

/-- Witness for C2: the demo store and the message "Tell me about David"
produce the system context item, then the user item, then generation. -/
theorem user_message_ordering_witness :
    handleUserMessage (some demoData) "Tell me about David" .noFault =
      [SessionAction.sendItem "system"
        "Here is relevant information about the sculptures from the database: \n\nSCULPTURE INFORMATION:\nName: David\nArtist: Michelangelo\nYear: 1504\nMaterial: marble\n\n",
       SessionAction.sendItem "user" "Tell me about David",
       SessionAction.generateResponse] :=
  (user_message_ordering demoData "Tell me about David").1 _ (by decide) (by decide)

/-- Claim C3: for a text content item with `n` chunks, the coordinator emits
exactly `n` `text_delta` frames, all with the same content id and in
chunk-arrival order, followed by exactly one `text_done` frame carrying the
same id, and nothing else. -/
theorem text_content_delta_done (content : RTTextContentModel) :
    (handleTextContent content).length = content.textChunks.length + 1 ∧
    (handleTextContent content).filterMap deltaPayload = content.textChunks ∧
    (handleTextContent content).countP
      (isDeltaWithId (contentIdOf content.itemId content.contentIndex)) =
      content.textChunks.length ∧
    (handleTextContent content).countP isDoneFrame = 1 ∧
    (handleTextContent content).getLast? =
      some (ClientFrame.textDone (contentIdOf content.itemId content.contentIndex)) ∧
    ∀ frame ∈ handleTextContent content,
      (∃ delta, frame =
          ClientFrame.textDelta (contentIdOf content.itemId content.contentIndex) delta ∧
        delta ∈ content.textChunks) ∨
      frame = ClientFrame.textDone (contentIdOf content.itemId content.contentIndex) := by
  refine ⟨?_, ?_, ?_, ?_, ?_, ?_⟩
  · simp [handleTextContent]
  · simp [handleTextContent, List.filterMap_append, List.filterMap_map, deltaPayload,
      Function.comp_def]
  · simp [handleTextContent, List.countP_append, List.countP_map, isDeltaWithId,
      Function.comp_def, List.countP_true]
  · simp [handleTextContent, List.countP_append, List.countP_map, isDoneFrame,
      Function.comp_def]
  · simp [handleTextContent, List.getLast?_append]
  · intro frame hf
    simp only [handleTextContent, List.mem_append, List.mem_map, List.mem_singleton] at hf
    rcases hf with ⟨delta, hd, rfl⟩ | rfl
    · exact Or.inl ⟨delta, rfl, hd⟩
    · exact Or.inr rfl

/-- Claim C8: whatever happens inside enrichment (no data service, a lookup
exception, a failing context submission), the user item is still submitted,
generation is still requested, and no frame of any kind — in particular no
error frame — is sent to the client on this path. -/
theorem enrichment_errors_swallowed (dataService : Option SculptureData) (text : String)
    (fault : EnrichFault) :
    ∃ contextPart, handleUserMessage dataService text fault =
        contextPart ++ [SessionAction.sendItem "user" text, SessionAction.generateResponse] ∧
      ∀ frame, SessionAction.clientFrame frame ∉ handleUserMessage dataService text fault := by
  refine ⟨(match dataService with
    | some d => if text == "" then [] else enrichActions d text fault
    | none => []), rfl, ?_⟩
  intro frame
  rcases dataService with _ | d
  · simp [handleUserMessage]
  · by_cases ht : (text == "") = true
    · simp [handleUserMessage, ht]
    · have ht' : (text == "") = false := by simpa using ht
      cases fault with
      | noFault =>
        cases he : enrichWithSculptureData d text <;>
          simp [handleUserMessage, enrichActions, contextItemFor, ht', he]
      | lookupFault => simp [handleUserMessage, enrichActions, ht']
      | contextSendFault =>
        cases he : enrichWithSculptureData d text <;>
          simp [handleUserMessage, enrichActions, contextItemFor, ht', he]

/-- A chunk that is a typed-array view of bytes `[6, 7]` at offset 1 inside
the three-byte `ArrayBuffer` `[5, 6, 7]`. -/
def viewChunk : AudioChunk :=
  { bufferBytes := [5, 6, 7], byteOffset := 1, byteLength := 2, bufferIsArrayBuffer := true }

/-- A chunk whose two-byte backing store is not an `ArrayBuffer` (e.g. a
`SharedArrayBuffer`). -/
def sharedChunk : AudioChunk :=
  { bufferBytes := [9, 9], byteOffset := 0, byteLength := 2, bufferIsArrayBuffer := false }

/-- Claim C9 is refuted by the code (code bug): the audio path sends
`chunk.buffer` whole when it is an `ArrayBuffer` — ignoring the view's
offset and length — and a fresh zero-filled buffer otherwise, so the binary
frame's bytes are not the chunk's bytes.  Evaluated at `viewChunk` (bytes
`[6, 7]`, frame sent `[5, 6, 7]`) and at `sharedChunk` (bytes `[9, 9]`,
frame sent `[0, 0]`). -/
theorem audio_chunk_forwarding_bug :
    chunkViewBytes viewChunk = [6, 7] ∧
    handleAudioChunks [viewChunk] = [ClientFrame.binary [5, 6, 7]] ∧
    handleAudioChunks [viewChunk] ≠ [ClientFrame.binary (chunkViewBytes viewChunk)] ∧
    chunkViewBytes sharedChunk = [9, 9] ∧
    handleAudioChunks [sharedChunk] = [ClientFrame.binary [0, 0]] ∧
    handleAudioChunks [sharedChunk] ≠ [ClientFrame.binary (chunkViewBytes sharedChunk)] := by
  decide
